import Mathlib

/-!
Verification of the CMYK video-decode pipeline.

This file gives a shallow embedding of the decode-orchestration worker
(`decoder_worker.js`), the consumer-side frame queue and render scheduler
(`app.js`), and the fragment shader (`shaders.js`), and proves or refutes
the specified behavioural claims about them.
-/

namespace CMYK

/-- A compressed sample as delivered by the demuxer (`onSamples` callback).
`is_sync` is the keyframe flag, `dataLen` is `sample.data.byteLength`,
`decodeThrows` records whether the decode engine throws synchronously when
this sample's chunk is submitted (environment behaviour). -/
structure Sample where
  is_sync : Bool
  dataLen : Nat
  decodeThrows : Bool
deriving Repr, DecidableEq

instance : Inhabited Sample := ⟨⟨false, 0, false⟩⟩

/-- Video track dimensions, as used by `calculateOptimalBatchSize`. -/
structure Track where
  track_width : Nat
  track_height : Nat
deriving Repr, DecidableEq

/-- Model of `calculateOptimalBatchSize` (decoder_worker.js lines 240-257):
batch size as a step function of `track_width * track_height`, with a
default of 10 when no track is available. -/
def calculateOptimalBatchSize : Option Track → Nat
  | none => 10
  | some track =>
    let pixelCount := track.track_width * track.track_height
    if pixelCount > 2073600 then 5
    else if pixelCount > 921600 then 10
    else if pixelCount > 307200 then 15
    else 20

/-- Classification of an encoded chunk (`EncodedVideoChunk.type`). -/
inductive ChunkKind
  | key
  | delta
deriving Repr, DecidableEq

/-- Model of the chunk-type computation at decoder_worker.js lines 373-392:
`forceKeyFrame = (i === startIndex && keyframeReceived && !isKeyFrame)` and
`type = (isKeyFrame || (forceKeyFrame && videoDecoder && videoDecoder.state
=== 'configured')) ? 'key' : 'delta'`.  The sample's payload length is in
scope in the source (it is used for logging) but does not enter the
classification. -/
def chunkType (i startIndex : Nat) (keyframeReceived : Bool)
    (isKeyFrame : Bool) (decoderConfigured : Bool) (_dataLen : Nat) : ChunkKind :=
  let forceKeyFrame := decide (i = startIndex) && keyframeReceived && !isKeyFrame
  if isKeyFrame || (forceKeyFrame && decoderConfigured) then ChunkKind.key
  else ChunkKind.delta

/-- Model of `k` in the fragment shader's `rgbToCmyk` (shaders.js):
`k = 1.0 - max(max(rgb.r, rgb.g), rgb.b)`.  Shader floats are modelled as
rationals. -/
def cmykK (r g b : ℚ) : ℚ := 1 - max (max r g) b

/-- The divisor guarded against zero in `rgbToCmyk`:
`max(1.0 - k, 0.00001)`. -/
def cmykDivisor (r g b : ℚ) : ℚ := max (1 - cmykK r g b) (1 / 100000)

/-- Model of the shader's `rgbToCmyk`: returns `(c, m, y, k)`. -/
def rgbToCmyk (r g b : ℚ) : ℚ × ℚ × ℚ × ℚ :=
  let k := cmykK r g b
  let invK := 1 / cmykDivisor r g b
  ((1 - r - k) * invK, (1 - g - k) * invK, (1 - b - k) * invK, k)

/-- Model of the fragment shader's `main`: channel selection on the
`u_channel` uniform (`0 → C`, `1 → M`, anything else → Y). -/
def shaderMain (channel : Int) (r g b : ℚ) : ℚ :=
  let cmyk := rgbToCmyk r g b
  if channel = 0 then cmyk.1
  else if channel = 1 then cmyk.2.1
  else cmyk.2.2.1

/-- Model of the keyframe scan loop at decoder_worker.js lines 320-327:
`for (let i = startIndex; i < endIndex; i++) if (samples[i].is_sync) ...`.
The fuel argument is the number of indices left to inspect. -/
def findKeyframeAux (samples : List Sample) : Nat → Nat → Option Nat
  | 0, _ => none
  | fuel + 1, i =>
    if (samples.getD i default).is_sync then some i
    else findKeyframeAux samples fuel (i + 1)

/-- First keyframe index in the half-open window `[s, e)`. -/
def findKeyframeFrom (samples : List Sample) (s e : Nat) : Option Nat :=
  findKeyframeAux samples (e - s) s

/-- Exponential backoff for decoder resets (decoder_worker.js line 410):
`Math.min(1000 * Math.pow(2, decoderResetAttempts), 10000)`. -/
def backoffDelay (attempts : Nat) : Nat := min (1000 * 2 ^ attempts) 10000

/-- Outcome of one run of the decode loop (decoder_worker.js lines 362-435):
the indices submitted to `videoDecoder.decode`, the running error count,
whether the error threshold triggered a decoder reset (which aborts the
loop), and the backoff delay computed for that reset. -/
structure LoopResult where
  submitted : List Nat
  errorCount : Nat
  reset : Bool
  backoff : Option Nat
deriving Repr, DecidableEq

/-- Model of the decode loop body (decoder_worker.js lines 362-435).  While
the decoder is configured each sample in the window is submitted; a
submission that throws increments the error count, and once that count
exceeds 5 the loop clears the keyframe gate, computes a backoff delay from
the current reset-attempt count, and returns.  While the decoder is not
configured samples are dropped and counted as errors.  The fuel argument is
the number of indices left in the window. -/
def decodeLoopAux (samples : List Sample) (configured : Bool) (attempts : Nat) :
    Nat → Nat → Nat → LoopResult
  | 0, _, ec => ⟨[], ec, false, none⟩
  | fuel + 1, i, ec =>
    let sample := samples.getD i default
    if configured then
      if sample.decodeThrows then
        if ec + 1 > 5 then
          ⟨[i], ec + 1, true, some (backoffDelay attempts)⟩
        else
          let r := decodeLoopAux samples configured attempts fuel (i + 1) (ec + 1)
          ⟨i :: r.submitted, r.errorCount, r.reset, r.backoff⟩
      else
        let r := decodeLoopAux samples configured attempts fuel (i + 1) ec
        ⟨i :: r.submitted, r.errorCount, r.reset, r.backoff⟩
    else
      decodeLoopAux samples configured attempts fuel (i + 1) (ec + 1)

/-- Observable outcome of one `processSamplesBatch` invocation. -/
structure StepOut where
  keyframeReceived : Bool
  submitted : List Nat
  errorCount : Nat
  reset : Bool
  backoff : Option Nat
  resetAttempts : Nat
  next : Option Nat
deriving Repr, DecidableEq

/-- Shared tail of `processSamplesBatch`: run the decode loop over
`[s0, e)` and package the outcome.  On a reset the keyframe gate is
cleared and the reset-attempt counter will be incremented (after the
backoff timer fires, decoder_worker.js lines 404-423). -/
def batchLoopOut (samples : List Sample) (configured : Bool)
    (errorCount attempts : Nat) (e s0 : Nat) (nextIdx : Option Nat) : StepOut :=
  let r := decodeLoopAux samples configured attempts (e - s0) s0 errorCount
  ⟨!r.reset, r.submitted, r.errorCount, r.reset, r.backoff,
   if r.reset then attempts + 1 else attempts, nextIdx⟩

/-- Model of one `processSamplesBatch` invocation (decoder_worker.js lines
266-445) after the decoder-readiness check: compute the window
`[startIndex, min(startIndex + batchSize, samples.length))`; if the
keyframe gate is closed, scan the window for the first keyframe — if none
is found the whole batch is skipped, with the gate force-opened only when
`startIndex > 100`, the decoder is configured and the sample at
`startIndex` is non-empty (lines 329-353); if a keyframe is found the gate
opens and the decode loop starts at its index (lines 354-359).  With the
gate open the decode loop runs over the whole window. -/
def processSamplesBatchStep (track : Option Track) (configured : Bool)
    (samples : List Sample) (startIndex : Nat) (kfIn : Bool)
    (errorCount attempts : Nat) : StepOut :=
  let batchSize := calculateOptimalBatchSize track
  let e := min (startIndex + batchSize) samples.length
  let nextIdx := if e < samples.length then some e else none
  if kfIn then
    batchLoopOut samples configured errorCount attempts e startIndex nextIdx
  else
    match findKeyframeFrom samples startIndex e with
    | none =>
      let forced := decide (100 < startIndex) && configured &&
        decide (startIndex < samples.length) &&
        decide (0 < (samples.getD startIndex default).dataLen)
      ⟨forced, [], errorCount, false, none, attempts, nextIdx⟩
    | some k => batchLoopOut samples configured errorCount attempts e k nextIdx

/-- Model of a full `processSamplesBatch` invocation including the
decoder-readiness branch (decoder_worker.js lines 273-315): when the
decoder is not configured and track information is available, the worker
re-runs decoder initialisation — on success the same batch is retried with
the decoder configured, on failure the batch is skipped and the next batch
is scheduled.  `initSucceeds` is the environment's answer to that
initialisation attempt. -/
def processSamplesBatchFull (track : Option Track) (configured initSucceeds : Bool)
    (samples : List Sample) (startIndex : Nat) (kfIn : Bool)
    (errorCount attempts : Nat) : StepOut :=
  if configured = false ∧ track.isSome then
    if initSucceeds then
      processSamplesBatchStep track true samples startIndex kfIn errorCount attempts
    else
      let e := min (startIndex + calculateOptimalBatchSize track) samples.length
      ⟨kfIn, [], errorCount, false, none, attempts,
       if e < samples.length then some e else none⟩
  else
    processSamplesBatchStep track configured samples startIndex kfIn errorCount attempts

/-- Model of the self-rescheduling batch chain (the `setTimeout` calls in
`processSamplesBatch` that hand the next `startIndex` to the next tick),
for an environment in which the decoder's configured state does not change
between batches.  Returns the final keyframe-gate value, the concatenated
submission indices, and the final reset-attempt counter. -/
def runBatches (track : Option Track) (configured initSucceeds : Bool)
    (samples : List Sample) : Nat → Nat → Bool → Nat → Nat → Bool × List Nat × Nat
  | 0, _, kf, _, att => (kf, [], att)
  | fuel + 1, s, kf, ec, att =>
    let r := processSamplesBatchFull track configured initSucceeds samples s kf ec att
    match r.next with
    | none => (r.keyframeReceived, r.submitted, r.resetAttempts)
    | some s2 =>
      let rest := runBatches track configured initSucceeds samples fuel s2
        r.keyframeReceived r.errorCount r.resetAttempts
      (rest.1, r.submitted ++ rest.2.1, rest.2.2)

/-- State of the `VideoDecoder` instance held in `videoDecoder`. -/
inductive DecState
  | unconfigured
  | configured
  | closed
deriving Repr, DecidableEq

/-- The worker's module-level mutable state (decoder_worker.js lines
16-26), restricted to the fields involved in session lifecycle and
completion.  `videoDecoder = none` models a null decoder reference and
`hasDemuxer` models `mp4boxfile !== null`. -/
structure WorkerState where
  isProcessingComplete : Bool
  videoDecoder : Option DecState
  hasDemuxer : Bool
  keyframeReceived : Bool
  decoderResetAttempts : Nat
  processingId : Nat
  sampleCount : Nat
deriving Repr, DecidableEq

/-- Messages the worker posts that matter here: the `decodeComplete`
signal and the flush-and-close teardown of a live decoder, each tagged
with the `processingId` current when it happened. -/
inductive Emission
  | decodeComplete (sessionId : Nat)
  | teardown (sessionId : Nat)
deriving Repr, DecidableEq

/-- Model of `closeDecoder` (decoder_worker.js lines 821-850): flush and
close the decoder if it exists and is not already closed, abort the
controller, clear the intervals, reset the keyframe gate and the
reset-attempt counter, post `decodeComplete` unconditionally, and null the
decoder reference. -/
def closeDecoder (st : WorkerState) : WorkerState × List Emission :=
  let tearingDown :=
    match st.videoDecoder with
    | some d => decide (d ≠ DecState.closed)
    | none => false
  let ems := (if tearingDown then [Emission.teardown st.processingId] else []) ++
    [Emission.decodeComplete st.processingId]
  ({ st with
      keyframeReceived := false
      decoderResetAttempts := 0
      videoDecoder := none }, ems)

/-- External events driving the worker's message loop and timers:
the `stop` control message, the quiescence interval firing with the
elapsed time since the last sample, the debounced `onComplete` timeout,
the `initMsg` event (an `initialize` control message carrying the new
session's correlation id), the demuxer's `onReady` callback with a
successful decoder configuration, and a demuxer `onSamples` delivery of
`n` samples. -/
inductive WorkerEvent
  | stop
  | quiescence (timeSinceLastSample : Nat)
  | onCompleteTimeout
  | initMsg (newId : Nat)
  | demuxReady
  | samplesArrive (n : Nat)
deriving Repr, DecidableEq

/-- Model of the `initialize` branch of `self.onmessage` (decoder_worker.js
lines 49-84): a fresh correlation id, all per-session counters and flags
reset, intervals cleared; if a demuxer from a previous session exists and
its decoder is not yet closed, `closeDecoder` runs — emitting its messages
— before the new demuxer is created. -/
def handleInitMsg (st : WorkerState) (newId : Nat) : WorkerState × List Emission :=
  let st1 := { st with
      processingId := newId
      isProcessingComplete := false
      sampleCount := 0
      keyframeReceived := false
      decoderResetAttempts := 0 }
  if st1.hasDemuxer then
    match st1.videoDecoder with
    | some d =>
      if d ≠ DecState.closed then
        let r := closeDecoder st1
        ({ r.1 with hasDemuxer := true }, r.2)
      else ({ st1 with videoDecoder := none, hasDemuxer := true }, [])
    | none => ({ st1 with videoDecoder := none, hasDemuxer := true }, [])
  else ({ st1 with hasDemuxer := true }, [])

/-- One step of the worker under an external event, following
decoder_worker.js: `stop` (lines 39-47), the quiescence check interval
(lines 176-207), the `onComplete` debounce timeout (lines 126-138),
`initialize` (lines 49-84), and the environment callbacks `onReady` with a
successful `initializeDecoder` and `onSamples` (lines 140-163, sample
bookkeeping only). -/
def stepWorker (st : WorkerState) : WorkerEvent → WorkerState × List Emission
  | WorkerEvent.stop =>
    if st.isProcessingComplete then (st, [])
    else closeDecoder { st with isProcessingComplete := true }
  | WorkerEvent.quiescence t =>
    if t > 5000 ∧ st.sampleCount > 0 ∧ st.isProcessingComplete = false then
      closeDecoder { st with isProcessingComplete := true }
    else (st, [])
  | WorkerEvent.onCompleteTimeout =>
    if st.isProcessingComplete then (st, [])
    else closeDecoder { st with isProcessingComplete := true }
  | WorkerEvent.initMsg newId => handleInitMsg st newId
  | WorkerEvent.demuxReady => ({ st with videoDecoder := some DecState.configured }, [])
  | WorkerEvent.samplesArrive n => ({ st with sampleCount := st.sampleCount + n }, [])

/-- Run the worker over a list of events, concatenating emissions. -/
def runWorker (st : WorkerState) : List WorkerEvent → WorkerState × List Emission
  | [] => (st, [])
  | e :: es =>
    let r := stepWorker st e
    let rest := runWorker r.1 es
    (rest.1, r.2 ++ rest.2)

/-- The worker's state at script start (decoder_worker.js lines 16-26),
with the initial `Date.now()` correlation id abstracted to 0. -/
def initialWorkerState : WorkerState :=
  ⟨false, none, false, false, 0, 0, 0⟩

/-- The events that run the completion path (each of them guards on
`isProcessingComplete` before tearing down). -/
def isCompletionEvent : WorkerEvent → Bool
  | WorkerEvent.stop => true
  | WorkerEvent.quiescence _ => true
  | WorkerEvent.onCompleteTimeout => true
  | _ => false

/-- Whether a completion event's own firing condition holds in a state:
`stop` and the `onComplete` timeout always fire; the quiescence check
fires only after more than 5000 ms without samples and at least one
sample ever received. -/
def firesCompletion (st : WorkerState) : WorkerEvent → Bool
  | WorkerEvent.quiescence t => decide (t > 5000) && decide (st.sampleCount > 0)
  | WorkerEvent.stop => true
  | WorkerEvent.onCompleteTimeout => true
  | _ => false

/-- A consumer-side frame-queue entry (app.js line 253): an opaque frame
handle and its presentation timestamp in microseconds. -/
structure QEntry where
  frame : Nat
  timestamp : Int
deriving Repr, DecidableEq

instance : Inhabited QEntry := ⟨⟨0, 0⟩⟩

/-- Model of the `newFrame` branch of `handleWorkerMessage` (app.js lines
249-263): push the arrived entry and sort the queue ascending by
timestamp (`frameQueue.sort((a, b) => a.timestamp - b.timestamp)`). -/
def handleNewFrame (queue : List QEntry) (e : QEntry) : List QEntry :=
  (queue ++ [e]).mergeSort (fun a b => a.timestamp ≤ b.timestamp)

/-- Model of the frame-selection scan in `renderLoop` (app.js lines
418-429): walk the queue from the newest index down; at the first entry
with timestamp ≤ the playback position, select it when seeking or when it
is strictly newer than the last rendered timestamp, and stop the scan
either way.  The argument is one past the index currently inspected. -/
def renderScan (queue : List QEntry) (videoTime lastRendered : Int)
    (seeking : Bool) : Nat → Option Nat
  | 0 => none
  | i + 1 =>
    let e := queue.getD i default
    if e.timestamp ≤ videoTime then
      if seeking || decide (e.timestamp > lastRendered) then some i else none
    else renderScan queue videoTime lastRendered seeking i

/-- Index of the frame `renderLoop` picks on a tick, if any. -/
def findRenderIndex (queue : List QEntry) (videoTime lastRendered : Int)
    (seeking : Bool) : Option Nat :=
  renderScan queue videoTime lastRendered seeking queue.length

/-- Outcome of one successful render tick: the queue after eviction, the
new last-rendered timestamp, and the entry drawn (if any). -/
structure RenderOut where
  queue : List QEntry
  lastRendered : Int
  rendered : Option QEntry
deriving Repr, DecidableEq

/-- Model of one `renderLoop` tick on the successful render path (app.js
lines 404-533): select a frame; if one is selected, draw it, record its
timestamp as last rendered, close it together with every older entry, and
`splice(0, frameIndex + 1)` them off the queue. -/
def renderTick (queue : List QEntry) (videoTime lastRendered : Int)
    (seeking : Bool) : RenderOut :=
  match findRenderIndex queue videoTime lastRendered seeking with
  | none => ⟨queue, lastRendered, none⟩
  | some i =>
    let e := queue.getD i default
    ⟨queue.drop (i + 1), e.timestamp, some e⟩

/-- Track metadata handed to `initializeDecoder` (decoder_worker.js
`trackInfo`): codec string, coded dimensions, optional out-of-band codec
description bytes. -/
structure TrackInfo where
  codec : String
  codedWidth : Nat
  codedHeight : Nat
  description : Option (List Nat)
deriving Repr, DecidableEq

/-- A candidate `VideoDecoder` configuration. -/
structure DecoderConfig where
  codec : String
  codedWidth : Nat
  codedHeight : Nat
  description : Option (List Nat)
deriving Repr, DecidableEq

/-- The generic codec family used by the third fallback
(decoder_worker.js line 547): `trackInfo.codec.split('.')[0]`, i.e. the
prefix of the codec string before the first dot. -/
def genericCodec (codec : String) : String :=
  String.mk (codec.data.takeWhile (fun ch => ch ≠ '.'))

/-- The configuration variants `initializeDecoder` checks, in order
(decoder_worker.js lines 510-565): the full config with the description
when one is available, the config without the description (skipped when no
description exists, since it would equal the first), then the generic
codec family. -/
def configCandidates (t : TrackInfo) : List DecoderConfig :=
  match t.description with
  | some d =>
    [⟨t.codec, t.codedWidth, t.codedHeight, some d⟩,
     ⟨t.codec, t.codedWidth, t.codedHeight, none⟩,
     ⟨genericCodec t.codec, t.codedWidth, t.codedHeight, none⟩]
  | none =>
    [⟨t.codec, t.codedWidth, t.codedHeight, none⟩,
     ⟨genericCodec t.codec, t.codedWidth, t.codedHeight, none⟩]

/-- The configuration `initializeDecoder` settles on: the first candidate
the decode engine reports as supported (`VideoDecoder.isConfigSupported`;
a check that throws counts as unsupported). -/
def selectDecoderConfig (supported : DecoderConfig → Bool) (t : TrackInfo) :
    Option DecoderConfig :=
  (configCandidates t).find? supported

/-- Model of the tail of `initializeDecoder` (decoder_worker.js lines
567-580): when no variant is supported, log an error and return without
constructing a decoder; otherwise construct and configure one with the
selected config. -/
def initDecoderModel (supported : DecoderConfig → Bool) (t : TrackInfo) :
    Option DecoderConfig × List String :=
  match selectDecoderConfig supported t with
  | none => (none, ["No supported decoder configuration found for this video"])
  | some c => (some c, [])

/-- C5: for every track, the computed batch size is exactly 5 when the
pixel count exceeds 2073600, else 10 when it exceeds 921600, else 15 when
it exceeds 307200, else 20. -/
theorem C5_batch_size (t : Track) :
    (2073600 < t.track_width * t.track_height →
      calculateOptimalBatchSize (some t) = 5) ∧
    (921600 < t.track_width * t.track_height →
      t.track_width * t.track_height ≤ 2073600 →
      calculateOptimalBatchSize (some t) = 10) ∧
    (307200 < t.track_width * t.track_height →
      t.track_width * t.track_height ≤ 921600 →
      calculateOptimalBatchSize (some t) = 15) ∧
    (t.track_width * t.track_height ≤ 307200 →
      calculateOptimalBatchSize (some t) = 20) := by
  refine ⟨?_, ?_, ?_, ?_⟩ <;>
    · intros
      simp only [calculateOptimalBatchSize]
      split <;> try rfl
      all_goals first
        | rfl
        | (split <;> try rfl
           all_goals first
             | rfl
             | (split <;> first | rfl | omega)
             | omega)
        | omega

/-- Witness for C5 at 1920 × 1080 (pixel count exactly 2073600, so the
second band applies and the batch size is 10). -/
theorem C5_batch_size_witness : calculateOptimalBatchSize (some ⟨1920, 1080⟩) = 10 :=
  (C5_batch_size ⟨1920, 1080⟩).2.1 (by norm_num) (by norm_num)

/-- C7 fails on the code: a non-key sample at the submission start with the
gate open and the decoder configured is classified `key` even when its
payload is empty (`dataLen = 0`), while the claim requires a non-empty
payload for a `key` classification (the payload check at lines 377-385
only selects the log message). -/
theorem C7_chunk_type_counterexample :
    chunkType 5 5 true false true 0 = ChunkKind.key ∧ ChunkKind.key ≠ ChunkKind.delta := by
  exact ⟨rfl, by decide⟩

/-- C7 (amended): a key sample always yields a `key` chunk; a non-key
sample yields a `key` chunk exactly when it is the first sample of the
batch, the gate is open, and the decoder is configured — the payload
length plays no part in the classification. -/
theorem C7_chunk_type (i startIndex : Nat) (kf isKey cfg : Bool) (dataLen : Nat) :
    (isKey = true → chunkType i startIndex kf isKey cfg dataLen = ChunkKind.key) ∧
    (isKey = false →
      (chunkType i startIndex kf isKey cfg dataLen = ChunkKind.key ↔
        i = startIndex ∧ kf = true ∧ cfg = true)) := by
  constructor
  · intro h
    subst h
    simp [chunkType]
  · intro h
    subst h
    by_cases hi : i = startIndex <;> cases kf <;> cases cfg <;>
      simp [chunkType, hi]

/-- Witness for C7: a keyframe sample is classified `key`. -/
theorem C7_chunk_type_witness : chunkType 0 0 false true false 7 = ChunkKind.key :=
  (C7_chunk_type 0 0 false true false 7).1 rfl

/-- C9: after any insertion of a newly arrived frame, the consumer-side
frame queue is sorted ascending by timestamp, whatever the arrival
order. -/
theorem C9_queue_sorted (queue : List QEntry) (e : QEntry) :
    (handleNewFrame queue e).Pairwise (fun a b => a.timestamp ≤ b.timestamp) := by
  unfold handleNewFrame
  have h : ((queue ++ [e]).mergeSort
        (fun a b => decide (a.timestamp ≤ b.timestamp))).Pairwise
      (fun a b => decide (a.timestamp ≤ b.timestamp) = true) :=
    List.sorted_mergeSort
      (fun a b c h1 h2 => by
        simp only [decide_eq_true_eq] at h1 h2 ⊢
        omega)
      (fun a b => by
        simp only [Bool.or_eq_true, decide_eq_true_eq]
        omega)
      (queue ++ [e])
  exact h.imp (fun hab => by simpa using hab)

/-- C10: the fragment shader's channel selection is total — selector 0
yields the cyan value, 1 the magenta value, and every other integer the
yellow value — and the CMYK divisor is bounded below by 0.00001, hence
never zero. -/
theorem C10_shader_total (channel : Int) (r g b : ℚ) :
    (channel = 0 → shaderMain channel r g b = (rgbToCmyk r g b).1) ∧
    (channel = 1 → shaderMain channel r g b = (rgbToCmyk r g b).2.1) ∧
    (channel ≠ 0 → channel ≠ 1 → shaderMain channel r g b = (rgbToCmyk r g b).2.2.1) ∧
    1 / 100000 ≤ cmykDivisor r g b ∧ 0 < cmykDivisor r g b := by
  refine ⟨?_, ?_, ?_, ?_, ?_⟩
  · intro h
    simp [shaderMain, h]
  · intro h
    simp [shaderMain, h]
  · intro h0 h1
    simp [shaderMain, h0, h1]
  · exact le_max_right _ _
  · exact lt_of_lt_of_le (by norm_num) (le_max_right _ _)

/-- Witness for C10: selector 7 (outside the documented set) yields the
yellow channel. -/
theorem C10_shader_total_witness :
    shaderMain 7 (1 / 2) (1 / 3) (1 / 4) = (rgbToCmyk (1 / 2) (1 / 3) (1 / 4)).2.2.1 :=
  (C10_shader_total 7 (1 / 2) (1 / 3) (1 / 4)).2.2.1 (by norm_num) (by norm_num)

/-- Soundness of the render scan: a selected index is in range, its
timestamp does not exceed the playback position, the newness-or-seeking
condition holds for it, and every entry above it is in the future. -/
theorem renderScan_sound (queue : List QEntry) (T last : Int) (seeking : Bool) :
    ∀ n i, renderScan queue T last seeking n = some i →
      i < n ∧ (queue.getD i default).timestamp ≤ T ∧
      (seeking = true ∨ last < (queue.getD i default).timestamp) ∧
      (∀ j, i < j → j < n → T < (queue.getD j default).timestamp) := by
  intro n
  induction n with
  | zero => intro i h; simp [renderScan] at h
  | succ n ih =>
    intro i h
    simp only [renderScan] at h
    split at h
    · rename_i he
      split at h
      · rename_i hc
        injection h with h
        subst h
        simp only [Bool.or_eq_true, decide_eq_true_eq] at hc
        refine ⟨Nat.lt_succ_self n, he, hc, ?_⟩
        intro j hj1 hj2
        omega
      · simp at h
    · rename_i he
      obtain ⟨h1, h2, h3, h4⟩ := ih i h
      refine ⟨Nat.lt_succ_of_lt h1, h2, h3, ?_⟩
      intro j hj1 hj2
      rcases Nat.lt_succ_iff_lt_or_eq.mp hj2 with hj | hj
      · exact h4 j hj1 hj
      · subst hj; omega

/-- Completeness of the render scan: if index `i` has a timestamp at or
before the playback position, satisfies the newness-or-seeking condition,
and every entry above it is in the future, then the scan selects `i`. -/
theorem renderScan_complete (queue : List QEntry) (T last : Int) (seeking : Bool) :
    ∀ n i, i < n →
      (queue.getD i default).timestamp ≤ T →
      (seeking = true ∨ last < (queue.getD i default).timestamp) →
      (∀ j, i < j → j < n → T < (queue.getD j default).timestamp) →
      renderScan queue T last seeking n = some i := by
  intro n
  induction n with
  | zero => intro i h; omega
  | succ n ih =>
    intro i hi hle hcond hnewer
    simp only [renderScan]
    by_cases hin : i = n
    · subst hin
      rw [if_pos hle, if_pos (by simp only [Bool.or_eq_true, decide_eq_true_eq]; exact hcond)]
    · have hn : T < (queue.getD n default).timestamp := hnewer n (by omega) (by omega)
      rw [if_neg (by omega)]
      exact ih i (by omega) hle hcond (fun j h1 h2 => hnewer j h1 (by omega))

/-- C2: on a render tick at playback position `T`, the loop selects the
newest queued entry with timestamp ≤ `T`, and only when that timestamp is
strictly newer than the last rendered one or a seek is in progress; it
never selects an entry with timestamp > `T`; rendering evicts the selected
entry and everything older, leaving exactly the strictly newer entries;
and on queue `[(f1, 1000), (f2, 2000)]` with `T = 1500`, last rendered 500
and no seek, `f1` is selected and evicted and `f2` remains. -/
theorem C2_render_selection :
    (∀ (queue : List QEntry) (T last : Int) (seeking : Bool) (i : Nat),
      findRenderIndex queue T last seeking = some i →
        i < queue.length ∧
        (queue.getD i default).timestamp ≤ T ∧
        (seeking = true ∨ last < (queue.getD i default).timestamp) ∧
        (∀ j, i < j → j < queue.length → T < (queue.getD j default).timestamp) ∧
        (renderTick queue T last seeking).queue = queue.drop (i + 1) ∧
        (renderTick queue T last seeking).lastRendered =
          (queue.getD i default).timestamp ∧
        (∀ e2 ∈ (renderTick queue T last seeking).queue,
          (queue.getD i default).timestamp < e2.timestamp)) ∧
    (∀ (queue : List QEntry) (T last : Int) (seeking : Bool) (i : Nat),
      i < queue.length →
      (queue.getD i default).timestamp ≤ T →
      (seeking = true ∨ last < (queue.getD i default).timestamp) →
      (∀ j, i < j → j < queue.length → T < (queue.getD j default).timestamp) →
      findRenderIndex queue T last seeking = some i) ∧
    (findRenderIndex [⟨1, 1000⟩, ⟨2, 2000⟩] 1500 500 false = some 0 ∧
      renderTick [⟨1, 1000⟩, ⟨2, 2000⟩] 1500 500 false =
        ⟨[⟨2, 2000⟩], 1000, some ⟨1, 1000⟩⟩) := by
  refine ⟨?_, ?_, by decide, by decide⟩
  · intro queue T last seeking i h
    obtain ⟨h1, h2, h3, h4⟩ := renderScan_sound queue T last seeking queue.length i h
    have htick : renderTick queue T last seeking =
        ⟨queue.drop (i + 1), (queue.getD i default).timestamp,
          some (queue.getD i default)⟩ := by
      simp [renderTick, h]
    refine ⟨h1, h2, h3, h4, by rw [htick], by rw [htick], ?_⟩
    intro e2 he2
    rw [htick] at he2
    simp only at he2
    obtain ⟨m, hm⟩ := List.mem_iff_getElem?.mp he2
    rw [List.getElem?_drop] at hm
    have hlen : i + 1 + m < queue.length := by
      by_contra hc
      rw [List.getElem?_eq_none (by omega)] at hm
      exact Option.noConfusion hm
    have hget : queue.getD (i + 1 + m) default = e2 := by
      rw [List.getD_eq_getElem?_getD, hm]
      rfl
    have := h4 (i + 1 + m) (by omega) hlen
    rw [hget] at this
    omega
  · intro queue T last seeking i h1 h2 h3 h4
    exact renderScan_complete queue T last seeking queue.length i h1 h2 h3 h4

/-- Witness for C2: the soundness conjunct applied to the concrete
Scenario-D queue. -/
theorem C2_render_selection_witness :
    0 < ([⟨1, 1000⟩, ⟨2, 2000⟩] : List QEntry).length ∧
    (([⟨1, 1000⟩, ⟨2, 2000⟩] : List QEntry).getD 0 default).timestamp ≤ 1500 ∧
    (false = true ∨ (500 : Int) <
      (([⟨1, 1000⟩, ⟨2, 2000⟩] : List QEntry).getD 0 default).timestamp) ∧
    (∀ j, 0 < j → j < ([⟨1, 1000⟩, ⟨2, 2000⟩] : List QEntry).length →
      (1500 : Int) < (([⟨1, 1000⟩, ⟨2, 2000⟩] : List QEntry).getD j default).timestamp) ∧
    (renderTick [⟨1, 1000⟩, ⟨2, 2000⟩] 1500 500 false).queue =
      ([⟨1, 1000⟩, ⟨2, 2000⟩] : List QEntry).drop 1 ∧
    (renderTick [⟨1, 1000⟩, ⟨2, 2000⟩] 1500 500 false).lastRendered =
      (([⟨1, 1000⟩, ⟨2, 2000⟩] : List QEntry).getD 0 default).timestamp ∧
    (∀ e2 ∈ (renderTick [⟨1, 1000⟩, ⟨2, 2000⟩] 1500 500 false).queue,
      (([⟨1, 1000⟩, ⟨2, 2000⟩] : List QEntry).getD 0 default).timestamp < e2.timestamp) :=
  C2_render_selection.1 [⟨1, 1000⟩, ⟨2, 2000⟩] 1500 500 false 0 (by decide)

/-- C8: when an out-of-band description is available, decoder
configuration checks exactly three variants in order — the full codec
string with the description, the codec string without it, and the generic
codec family (the codec string up to the first dot) — uses the first one
the decode engine reports as supported, and when none is supported creates
no decoder and surfaces an error. -/
theorem C8_config_fallback (supported : DecoderConfig → Bool)
    (codec : String) (w h : Nat) (d : List Nat) :
    configCandidates ⟨codec, w, h, some d⟩ =
      [⟨codec, w, h, some d⟩, ⟨codec, w, h, none⟩,
       ⟨genericCodec codec, w, h, none⟩] ∧
    (supported ⟨codec, w, h, some d⟩ = true →
      initDecoderModel supported ⟨codec, w, h, some d⟩ =
        (some ⟨codec, w, h, some d⟩, [])) ∧
    (supported ⟨codec, w, h, some d⟩ = false →
      supported ⟨codec, w, h, none⟩ = true →
      initDecoderModel supported ⟨codec, w, h, some d⟩ =
        (some ⟨codec, w, h, none⟩, [])) ∧
    (supported ⟨codec, w, h, some d⟩ = false →
      supported ⟨codec, w, h, none⟩ = false →
      supported ⟨genericCodec codec, w, h, none⟩ = true →
      initDecoderModel supported ⟨codec, w, h, some d⟩ =
        (some ⟨genericCodec codec, w, h, none⟩, [])) ∧
    (supported ⟨codec, w, h, some d⟩ = false →
      supported ⟨codec, w, h, none⟩ = false →
      supported ⟨genericCodec codec, w, h, none⟩ = false →
      initDecoderModel supported ⟨codec, w, h, some d⟩ =
        (none, ["No supported decoder configuration found for this video"])) := by
  refine ⟨rfl, ?_, ?_, ?_, ?_⟩ <;>
    · intros
      simp_all [initDecoderModel, selectDecoderConfig, configCandidates, List.find?]

/-- Witness for C8: a support oracle that accepts only the bare codec
family makes configuration fall through to the third variant. -/
theorem C8_config_fallback_witness :
    initDecoderModel (fun c => decide (c.codec = "avc1")) ⟨"avc1.42E01E", 640, 480, some [1, 66]⟩ =
      (some ⟨genericCodec "avc1.42E01E", 640, 480, none⟩, []) :=
  (C8_config_fallback (fun c => decide (c.codec = "avc1")) "avc1.42E01E" 640 480
    [1, 66]).2.2.2.1 (by decide) (by decide) (by decide)

/-- The keyframe scan finds nothing when no sample in the window is a
keyframe. -/
theorem findKeyframeAux_eq_none (samples : List Sample) :
    ∀ fuel i, (∀ j, i ≤ j → j < i + fuel → (samples.getD j default).is_sync = false) →
      findKeyframeAux samples fuel i = none := by
  intro fuel
  induction fuel with
  | zero => intro i _; rfl
  | succ fuel ih =>
    intro i h
    simp only [findKeyframeAux]
    rw [h i (Nat.le_refl i) (by omega), if_neg (by simp)]
    exact ih (i + 1) (fun j hj1 hj2 => h j (by omega) (by omega))

/-- The keyframe scan returns the first keyframe index in the window. -/
theorem findKeyframeAux_first (samples : List Sample) :
    ∀ fuel i k, i ≤ k → k < i + fuel →
      (samples.getD k default).is_sync = true →
      (∀ j, i ≤ j → j < k → (samples.getD j default).is_sync = false) →
      findKeyframeAux samples fuel i = some k := by
  intro fuel
  induction fuel with
  | zero => intro i k h1 h2; omega
  | succ fuel ih =>
    intro i k h1 h2 h3 h4
    simp only [findKeyframeAux]
    by_cases hik : i = k
    · subst hik
      rw [h3, if_pos rfl]
    · rw [h4 i (Nat.le_refl i) (by omega), if_neg (by simp)]
      exact ih (i + 1) k (by omega) (by omega) h3
        (fun j hj1 hj2 => h4 j (by omega) hj2)

/-- With the decoder unconfigured, the decode loop submits nothing (every
sample is dropped and counted as an error). -/
theorem decodeLoopAux_not_configured (samples : List Sample) (attempts : Nat) :
    ∀ fuel i ec, (decodeLoopAux samples false attempts fuel i ec).submitted = [] := by
  intro fuel
  induction fuel with
  | zero => intro i ec; rfl
  | succ fuel ih =>
    intro i ec
    simp only [decodeLoopAux]
    rw [if_neg (by simp)]
    exact ih (i + 1) (ec + 1)

/-- With the decoder configured, the decode loop submits a contiguous
range of indices starting at the loop's start index. -/
theorem decodeLoopAux_submitted_range (samples : List Sample) (attempts : Nat) :
    ∀ fuel i ec, ∃ m,
      (decodeLoopAux samples true attempts fuel i ec).submitted = List.range' i m := by
  intro fuel
  induction fuel with
  | zero => intro i ec; exact ⟨0, rfl⟩
  | succ fuel ih =>
    intro i ec
    simp only [decodeLoopAux]
    rw [if_pos trivial]
    by_cases ht : (samples.getD i default).decodeThrows = true
    · rw [if_pos ht]
      by_cases he : ec + 1 > 5
      · rw [if_pos he]
        exact ⟨1, rfl⟩
      · rw [if_neg he]
        obtain ⟨m, hm⟩ := ih (i + 1) (ec + 1)
        exact ⟨m + 1, by simp only [hm]; rfl⟩
    · rw [if_neg ht]
      obtain ⟨m, hm⟩ := ih (i + 1) ec
      exact ⟨m + 1, by simp only [hm]; rfl⟩

/-- The decode loop submits a contiguous range from its start index, for
either decoder state. -/
theorem decodeLoopAux_submitted (samples : List Sample) (configured : Bool)
    (attempts fuel i ec : Nat) : ∃ m,
      (decodeLoopAux samples configured attempts fuel i ec).submitted = List.range' i m := by
  cases configured
  · exact ⟨0, decodeLoopAux_not_configured samples attempts fuel i ec⟩
  · exact decodeLoopAux_submitted_range samples attempts fuel i ec

/-- C1: with the keyframe gate closed, a batch whose window contains no
keyframe submits nothing to the decoder, and a batch whose first keyframe
sits at index `k` submits only a contiguous run starting at `k` — so no
chunk reaches `decode` before the gate opens. -/
theorem C1_keyframe_gate (track : Option Track) (configured initSucceeds : Bool)
    (samples : List Sample) (s ec att : Nat) :
    ((∀ j, s ≤ j → j < min (s + calculateOptimalBatchSize track) samples.length →
        (samples.getD j default).is_sync = false) →
      (processSamplesBatchFull track configured initSucceeds samples s false ec att).submitted =
        []) ∧
    (∀ k, s ≤ k → k < min (s + calculateOptimalBatchSize track) samples.length →
      (samples.getD k default).is_sync = true →
      (∀ j, s ≤ j → j < k → (samples.getD j default).is_sync = false) →
      ∃ m,
        (processSamplesBatchFull track configured initSucceeds samples s false ec
          att).submitted = List.range' k m) := by
  have escan : ∀ cfg : Bool,
      (∀ j, s ≤ j → j < min (s + calculateOptimalBatchSize track) samples.length →
        (samples.getD j default).is_sync = false) →
      (processSamplesBatchStep track cfg samples s false ec att).submitted = [] := by
    intro cfg h
    simp only [processSamplesBatchStep, findKeyframeFrom]
    rw [findKeyframeAux_eq_none samples _ s (fun j hj1 hj2 => h j hj1 (by omega))]
    rfl
  have kscan : ∀ (cfg : Bool) (k : Nat),
      s ≤ k → k < min (s + calculateOptimalBatchSize track) samples.length →
      (samples.getD k default).is_sync = true →
      (∀ j, s ≤ j → j < k → (samples.getD j default).is_sync = false) →
      ∃ m, (processSamplesBatchStep track cfg samples s false ec att).submitted =
        List.range' k m := by
    intro cfg k h1 h2 h3 h4
    simp only [processSamplesBatchStep, findKeyframeFrom]
    rw [findKeyframeAux_first samples _ s k h1 (by omega) h3 h4]
    exact decodeLoopAux_submitted samples cfg att _ k ec
  constructor
  · intro h
    simp only [processSamplesBatchFull]
    split
    · split
      · exact escan true h
      · rfl
    · exact escan configured h
  · intro k h1 h2 h3 h4
    simp only [processSamplesBatchFull]
    split
    · split
      · exact kscan true k h1 h2 h3 h4
      · exact ⟨0, rfl⟩
    · exact kscan configured k h1 h2 h3 h4

/-- Witness for C1: a two-sample batch whose keyframe sits at index 1
submits a contiguous run starting at index 1. -/
theorem C1_keyframe_gate_witness :
    ∃ m,
      (processSamplesBatchFull none true true [⟨false, 1, false⟩, ⟨true, 1, false⟩] 0 false 0
        0).submitted = List.range' 1 m :=
  (C1_keyframe_gate none true true [⟨false, 1, false⟩, ⟨true, 1, false⟩] 0 0 0).2 1
    (by omega) (by decide) (by decide)
    (fun j hj1 hj2 => by
      have : j = 0 := by omega
      subst this
      rfl)

/-- C6 fails on the code: the forced-open threshold tests the start index
within the current demuxer callback's sample array (`startIndex > 100`),
not a count accumulated across the session.  Two callbacks of 80 non-key,
non-empty samples each — 160 > 100 skipped in the session, decoder
configured throughout — leave the gate closed and submit nothing, where
the claim requires the gate to be forced open. -/
theorem C6_forced_gate_counterexample :
    (let arr : List Sample := List.replicate 80 ⟨false, 1, false⟩
     let r1 := runBatches (some ⟨640, 480⟩) true true arr 80 0 false 0 0
     let r2 := runBatches (some ⟨640, 480⟩) true true arr 80 0 r1.1 0 r1.2.2
     160 > 100 ∧ r1.1 = false ∧ r1.2.1 = [] ∧ r2.1 = false ∧ r2.2.1 = []) := by
  decide

/-- C6 (amended): with the gate closed and no keyframe in the batch
window, the batch submits nothing, and the gate is forced open exactly
when more than 100 samples have been skipped within the current demuxer
callback's sample array (the batch start index exceeds 100), the decoder
is configured, and the sample at the start index exists and is
non-empty; otherwise the search continues with the gate closed. -/
theorem C6_forced_gate (track : Option Track) (configured : Bool)
    (samples : List Sample) (s ec att : Nat)
    (hnk : ∀ j, s ≤ j → j < min (s + calculateOptimalBatchSize track) samples.length →
      (samples.getD j default).is_sync = false) :
    (processSamplesBatchStep track configured samples s false ec att).submitted = [] ∧
    ((processSamplesBatchStep track configured samples s false ec att).keyframeReceived =
        true ↔
      (100 < s ∧ configured = true ∧ s < samples.length ∧
        0 < (samples.getD s default).dataLen)) := by
  simp only [processSamplesBatchStep, findKeyframeFrom]
  rw [findKeyframeAux_eq_none samples _ s (fun j hj1 hj2 => hnk j hj1 (by omega))]
  refine ⟨rfl, ?_⟩
  show (decide (100 < s) && configured && decide (s < samples.length) &&
      decide (0 < (samples.getD s default).dataLen)) = true ↔
    100 < s ∧ configured = true ∧ s < samples.length ∧
      0 < (samples.getD s default).dataLen
  simp only [Bool.and_eq_true, decide_eq_true_eq, and_assoc]

/-- Witness for C6: a window past index 100 of an all-delta stream with a
configured decoder and a non-empty sample at the start index opens the
gate without submitting. -/
theorem C6_forced_gate_witness :
    (processSamplesBatchStep none true (List.replicate 102 ⟨false, 1, false⟩) 101 false 0
      0).submitted = [] ∧
    ((processSamplesBatchStep none true (List.replicate 102 ⟨false, 1, false⟩) 101 false 0
      0).keyframeReceived = true ↔
      (100 < 101 ∧ true = true ∧
        101 < (List.replicate 102 (⟨false, 1, false⟩ : Sample)).length ∧
        0 < ((List.replicate 102 (⟨false, 1, false⟩ : Sample)).getD 101 default).dataLen)) :=
  C6_forced_gate none true (List.replicate 102 ⟨false, 1, false⟩) 101 0 0
    (fun j hj1 hj2 => by
      have : j = 101 := by
        simp only [List.length_replicate] at hj2
        omega
      subst this
      rfl)

/-- C4 fails on the code: a decode batch that completes without
triggering a reset leaves the reset-attempt counter unchanged (here at 3),
where the claim requires it to drop back to zero; the counter is only
zeroed by a new `initialize` request and by `closeDecoder`. -/
theorem C4_backoff_counterexample :
    (processSamplesBatchStep (some ⟨100, 100⟩) true (List.replicate 5 ⟨true, 1, false⟩) 0 true
      0 3).reset = false ∧
    (processSamplesBatchStep (some ⟨100, 100⟩) true (List.replicate 5 ⟨true, 1, false⟩) 0 true
      0 3).next = none ∧
    (processSamplesBatchStep (some ⟨100, 100⟩) true (List.replicate 5 ⟨true, 1, false⟩) 0 true
      0 3).resetAttempts = 3 := by
  decide

/-- C4 (amended): with `N` prior reset attempts, a reset triggered in the
decode loop computes the backoff delay `min(1000 × 2^N, 10000)` and the
counter becomes `N + 1`; a batch that finishes without a reset leaves the
counter at `N`; the counter is zeroed when a new `initialize` request
begins a ProcessingSession and inside `closeDecoder` — not when a batch
merely completes without a reset. -/
theorem C4_backoff :
    (∀ (samples : List Sample) (cfg : Bool) (att fuel i ec : Nat),
      (decodeLoopAux samples cfg att fuel i ec).reset = true →
      (decodeLoopAux samples cfg att fuel i ec).backoff =
        some (min (1000 * 2 ^ att) 10000)) ∧
    (∀ (track : Option Track) (cfg : Bool) (samples : List Sample) (s : Nat) (kf : Bool)
      (ec att : Nat),
      ((processSamplesBatchStep track cfg samples s kf ec att).reset = true →
        (processSamplesBatchStep track cfg samples s kf ec att).resetAttempts = att + 1) ∧
      ((processSamplesBatchStep track cfg samples s kf ec att).reset = false →
        (processSamplesBatchStep track cfg samples s kf ec att).resetAttempts = att)) ∧
    (∀ (st : WorkerState) (newId : Nat),
      (stepWorker st (WorkerEvent.initMsg newId)).1.decoderResetAttempts = 0) ∧
    (∀ st : WorkerState, (closeDecoder st).1.decoderResetAttempts = 0) := by
  refine ⟨?_, ?_, ?_, ?_⟩
  · intro samples cfg att fuel
    induction fuel with
    | zero =>
      intro i ec h
      simp [decodeLoopAux] at h
    | succ fuel ih =>
      intro i ec
      cases cfg
      · simp only [decodeLoopAux]
        rw [if_neg (by simp)]
        exact ih (i + 1) (ec + 1)
      · simp only [decodeLoopAux]
        rw [if_pos trivial]
        by_cases ht : (samples.getD i default).decodeThrows = true
        · rw [if_pos ht]
          by_cases he : ec + 1 > 5
          · rw [if_pos he]
            intro _
            rfl
          · rw [if_neg he]
            exact ih (i + 1) (ec + 1)
        · rw [if_neg ht]
          exact ih (i + 1) ec
  · intro track cfg samples s kf ec att
    constructor
    · simp only [processSamplesBatchStep, batchLoopOut]
      split
      · intro h
        simp only at h ⊢
        rw [if_pos h]
      · split
        · intro h
          simp at h
        · intro h
          simp only at h ⊢
          rw [if_pos h]
    · simp only [processSamplesBatchStep, batchLoopOut]
      split
      · intro h
        simp only at h ⊢
        rw [if_neg (by simp [h])]
      · split
        · intro _
          rfl
        · intro h
          simp only at h ⊢
          rw [if_neg (by simp [h])]
  · intro st newId
    simp only [stepWorker, handleInitMsg, closeDecoder]
    split <;> first
      | rfl
      | (split <;> first
          | rfl
          | (split <;> rfl))
  · intro st
    rfl

/-- Witness for C4: six consecutive decode throws with two prior reset
attempts trigger a reset whose backoff is `min(1000 × 2^2, 10000)`. -/
theorem C4_backoff_witness :
    (decodeLoopAux (List.replicate 7 ⟨false, 1, true⟩) true 2 7 0 0).backoff =
      some (min (1000 * 2 ^ 2) 10000) :=
  C4_backoff.1 (List.replicate 7 ⟨false, 1, true⟩) true 2 7 0 0 (by decide)

/-- C3 fails on the code: `closeDecoder` posts `decodeComplete`
unconditionally, and a new `initialize` request that supersedes a session
whose decoder is still open runs `closeDecoder` as part of retiring it
(decoder_worker.js lines 72-84).  In this trace only one completion
trigger ever fires, yet two `decodeComplete` emissions and two teardowns
occur while correlation id 2 is current — the first pair produced by the
supersession itself on behalf of the superseded session. -/
theorem C3_completion_counterexample :
    (let events := [WorkerEvent.initMsg 1, WorkerEvent.demuxReady,
      WorkerEvent.samplesArrive 10, WorkerEvent.initMsg 2, WorkerEvent.demuxReady,
      WorkerEvent.samplesArrive 5, WorkerEvent.quiescence 6000]
     let r := runWorker initialWorkerState events
     r.2.count (Emission.decodeComplete 2) = 2 ∧
     r.2.count (Emission.teardown 2) = 2 ∧
     (events.filter (fun e => isCompletionEvent e)).length = 1) := by
  decide

/-- C3 (amended): the guarded completion paths are idempotent — from an
incomplete state, a firing completion trigger emits exactly one
`decodeComplete` and exactly one teardown when a non-closed decoder
exists (none otherwise), marks the session complete, and a second
completion trigger emits nothing; however, an `initialize` request
superseding a session whose decoder is still open additionally runs the
emitting teardown path. -/
theorem C3_completion_idempotent (st : WorkerState) (e1 e2 : WorkerEvent)
    (h1 : isCompletionEvent e1 = true) (hf : firesCompletion st e1 = true)
    (h2 : isCompletionEvent e2 = true)
    (hc : st.isProcessingComplete = false) :
    (stepWorker st e1).2.count (Emission.decodeComplete st.processingId) = 1 ∧
    ((stepWorker st e1).2.count (Emission.teardown st.processingId) =
      if (match st.videoDecoder with
          | some d => decide (d ≠ DecState.closed)
          | none => false) = true then 1 else 0) ∧
    (stepWorker st e1).1.isProcessingComplete = true ∧
    (stepWorker (stepWorker st e1).1 e2).2 = [] := by
  have hstep1 : stepWorker st e1 = closeDecoder { st with isProcessingComplete := true } := by
    cases e1 with
    | stop => simp [stepWorker, hc]
    | quiescence t =>
      simp only [firesCompletion, Bool.and_eq_true, decide_eq_true_eq] at hf
      simp [stepWorker, hc, hf.1, hf.2]
    | onCompleteTimeout => simp [stepWorker, hc]
    | initMsg newId => simp [isCompletionEvent] at h1
    | demuxReady => simp [isCompletionEvent] at h1
    | samplesArrive n => simp [isCompletionEvent] at h1
  have hcomplete : (closeDecoder { st with isProcessingComplete := true }).1.isProcessingComplete =
      true := rfl
  refine ⟨?_, ?_, by rw [hstep1]; exact hcomplete, ?_⟩
  · rw [hstep1]
    simp only [closeDecoder]
    rcases st.videoDecoder with _ | d
    · simp
    · by_cases hd : d = DecState.closed <;> simp [hd]
  · rw [hstep1]
    simp only [closeDecoder]
    rcases st.videoDecoder with _ | d
    · simp
    · by_cases hd : d = DecState.closed <;> simp [hd]
  · rw [hstep1]
    cases e2 with
    | stop => simp [stepWorker, hcomplete]
    | quiescence t => simp [stepWorker, hcomplete]
    | onCompleteTimeout => simp [stepWorker, hcomplete]
    | initMsg newId => simp [isCompletionEvent] at h2
    | demuxReady => simp [isCompletionEvent] at h2
    | samplesArrive n => simp [isCompletionEvent] at h2

/-- Witness for C3: the quiescence trigger followed by a stop on a
configured-decoder session emits one `decodeComplete`, one teardown, and
nothing on the second trigger. -/
theorem C3_completion_idempotent_witness :
    (stepWorker ⟨false, some DecState.configured, true, true, 2, 7, 3⟩
      (WorkerEvent.quiescence 6000)).2.count (Emission.decodeComplete 7) = 1 ∧
    ((stepWorker ⟨false, some DecState.configured, true, true, 2, 7, 3⟩
      (WorkerEvent.quiescence 6000)).2.count (Emission.teardown 7) =
      if (match (⟨false, some DecState.configured, true, true, 2, 7, 3⟩ :
            WorkerState).videoDecoder with
          | some d => decide (d ≠ DecState.closed)
          | none => false) = true then 1 else 0) ∧
    (stepWorker ⟨false, some DecState.configured, true, true, 2, 7, 3⟩
      (WorkerEvent.quiescence 6000)).1.isProcessingComplete = true ∧
    (stepWorker (stepWorker ⟨false, some DecState.configured, true, true, 2, 7, 3⟩
      (WorkerEvent.quiescence 6000)).1 WorkerEvent.stop).2 = [] :=
  C3_completion_idempotent ⟨false, some DecState.configured, true, true, 2, 7, 3⟩
    (WorkerEvent.quiescence 6000) WorkerEvent.stop rfl (by decide) rfl rfl

end CMYK
